import Mathlib

/-!
Shallow embedding of the dj-overlay core: `src/audio-chain.js` (class
`AudioChain`) and `src/controller.js` (class `DJController`).

Modelling conventions:
- Decks are the two-valued type `Deck`; a Song plugin instance is identified
  by a numeric id standing for JavaScript object identity.
- The Tone.js crossfade signal (`this.crossfade.fade`) is a `FadeSignal`
  holding the position reached at the last retarget and the current ramp
  target; `FadeSignal.sample t` gives the position a fraction `t` of the way
  along the ramp.  `fade.value = v` (immediate assignment) and
  `fade.rampTo(v, r)` are the two branches of `AudioChain.setCrossfade`,
  exactly as in the source; no clamping happens anywhere, as in the source.
- The live analyser/meter readings come from the external audio engine,
  modelled as an `Engine` record passed to `getAudioData`.
- Controller state is `Sys`: deck slots, active deck, visual list, the
  rAF handle (`animationId`) and the outstanding rAF callback ids, the
  pending `setTimeout` completions of `startCrossfade` (each records its
  fire time and the `targetDeck` value captured by its closure), and an
  event log recording bus emissions and calls into plugin instances.
- External side effects (bus.emit, song.play/stop/dispose, canvas removal,
  visual dispose/render, console warnings and errors) are log events.
- Asynchronous module resolution plus `new SongClass()` plus
  `await song.init()` in `loadSong` is a parameter `res : Except Nat Song`:
  `Except.error e` is a rejection anywhere in that prefix of the try block.
- Time passes only through `atTime` (the host clock before a call) and
  `fireNextTimer` (the host firing the earliest due `setTimeout` callback).
-/

namespace DJOverlay

/-- Deck identity: the strings `'A'` and `'B'` in the source. -/
inductive Deck
  | A
  | B
  deriving DecidableEq, Repr

/-- The other deck (the ternary `this.activeDeck === 'A' ? 'B' : 'A'`). -/
def Deck.other : Deck → Deck
  | Deck.A => Deck.B
  | Deck.B => Deck.A

/-- A Song plugin instance; `id` stands for JavaScript object identity. -/
structure Song where
  id : Nat
  deriving DecidableEq, Repr

/-- A Visual plugin instance.  `hasCanvas` models `visual._canvas` being set
and `hasDispose` models presence of the optional `dispose` capability
(the source guards both: `if (visual._canvas)` and `visual.dispose?.()`). -/
structure Visual where
  id : Nat
  hasCanvas : Bool
  hasDispose : Bool
  deriving DecidableEq, Repr

/-- A meter reading in decibels; `negInf` is the JavaScript `-Infinity`
returned for silence. -/
inductive AudioVol
  | negInf
  | level (db : ℚ)
  deriving DecidableEq, Repr

/-- The object returned by `AudioChain.getAudioData`. -/
structure AudioData where
  frequencyData : List ℚ
  waveformData : List ℚ
  volume : AudioVol
  deriving DecidableEq, Repr

/-- The external audio engine's current live tap readings
(`analyser.getValue()`, `waveformAnalyser.getValue()`, `meter.getValue()`). -/
structure Engine where
  analyserFreq : List ℚ
  analyserWave : List ℚ
  meterVol : AudioVol
  deriving DecidableEq, Repr

/-- The crossfade node's `fade` signal: the position reached when the ramp
was last retargeted, and the ramp's current target. -/
structure FadeSignal where
  value : ℚ
  target : ℚ
  deriving DecidableEq, Repr

/-- Position a fraction `t ∈ [0,1]` of the way along the ramp. -/
def FadeSignal.sample (f : FadeSignal) (t : ℚ) : ℚ :=
  f.value + t * (f.target - f.value)

/-- State of `class AudioChain`.  `connectedA`/`connectedB` record the song
outputs attached to `crossfade.a`/`crossfade.b` (connections accumulate;
`connectToDeck` never disconnects, as in the source). -/
structure AudioChain where
  isInitialized : Bool
  fade : FadeSignal
  connectedA : List Nat
  connectedB : List Nat
  deriving DecidableEq, Repr

/-- `AudioChain.init()`: constructs fresh nodes (a new `Tone.CrossFade`
has `fade = 0.5` and no connections) and sets `isInitialized = true`. -/
def AudioChain.init (_c : AudioChain) : AudioChain :=
  { isInitialized := true
    fade := { value := 1/2, target := 1/2 }
    connectedA := []
    connectedB := [] }

/-- The default snapshot built by `getAudioData` when not initialized:
`new Float32Array(1024)` is 1024 zero entries, and `volume: -Infinity`. -/
def defaultAudioData : AudioData :=
  { frequencyData := List.replicate 1024 0
    waveformData := List.replicate 1024 0
    volume := AudioVol.negInf }

/-- `AudioChain.getAudioData()`: the guard `if (!this.isInitialized)`
returns the default snapshot; otherwise the live analyser values. -/
def AudioChain.getAudioData (c : AudioChain) (env : Engine) : AudioData :=
  if c.isInitialized = false then
    defaultAudioData
  else
    { frequencyData := env.analyserFreq
      waveformData := env.analyserWave
      volume := env.meterVol }

/-- `AudioChain.connectToDeck(songOutput, deck)`: connect a song output to
crossfade input a or b. -/
def AudioChain.connectToDeck (c : AudioChain) (songOutput : Nat) (deck : Deck) : AudioChain :=
  if deck = Deck.A then
    { c with connectedA := c.connectedA ++ [songOutput] }
  else
    { c with connectedB := c.connectedB ++ [songOutput] }

/-- `AudioChain.setCrossfade(value, rampTime = 0)`: `rampTime > 0` retargets
the ramp (`fade.rampTo(value, rampTime)`) from the position reached;
otherwise it assigns `fade.value = value` directly.  Neither branch clamps. -/
def AudioChain.setCrossfade (c : AudioChain) (value : ℚ) (rampTime : ℚ) : AudioChain :=
  if 0 < rampTime then
    { c with fade := { value := c.fade.value, target := value } }
  else
    { c with fade := { value := value, target := value } }

/-- `AudioChain.dispose()`: disposes every node (external resource release)
and sets `isInitialized = false`, so later reads return defaults. -/
def AudioChain.dispose (c : AudioChain) : AudioChain :=
  { c with isInitialized := false }

/-- Observable events: bus emissions, plugin method calls, console warnings
and errors made by the controller. -/
inductive Ev
  | songDisposed (songId : Nat)
  | songAssigned (deck : Deck) (songId : Nat)
  | songLoaded (deck : Deck) (songId : Nat)
  | loadError (code : Nat)
  | songPlayed (songId : Nat)
  | songStopped (songId : Nat)
  | crossfadeStart (src dst : Deck) (duration : Nat)
  | crossfadeComplete (activeDeck : Deck)
  | deckSwitch (activeDeck : Deck)
  | warnNoSong
  | canvasRemoved (visualId : Nat)
  | visualDisposed (visualId : Nat)
  | frameRendered (data : AudioData)
  | visualRendered (visualId : Nat)
  deriving DecidableEq, Repr

/-- A pending `setTimeout` completion scheduled by `startCrossfade`:
when it fires and the `targetDeck` value captured by its closure. -/
structure Pending where
  fireAt : Nat
  target : Deck
  deriving DecidableEq, Repr

/-- State of `class DJController` together with its host environment:
the clock (ms), the engine taps, the pending timers, the rAF queue and
id counter, and the event log. -/
structure Sys where
  now : Nat
  engine : Engine
  chain : AudioChain
  deckA : Option Song
  deckB : Option Song
  activeDeck : Deck
  visuals : List Visual
  animationId : Option Nat
  rafQueue : List Nat
  nextRafId : Nat
  timers : List Pending
  log : List Ev
  deriving DecidableEq, Repr

/-- JavaScript truthiness of the nullable numeric `animationId`. -/
def truthy : Option Nat → Bool
  | none => false
  | some n => n != 0

/-- The slot of the named deck (`deck === 'A' ? this.deckA : this.deckB`). -/
def deckSlot (s : Sys) (deck : Deck) : Option Song :=
  if deck = Deck.A then s.deckA else s.deckB

/-- Success path of `loadSong` after `import`, `new SongClass()` and
`await song.init()` have all succeeded: dispose the old occupant if any,
store the new song, connect it to the chain, emit `songLoaded`.
`Ev.songAssigned` marks the store into the deck slot, after the dispose. -/
def loadSongOk (s : Sys) (song : Song) (deck : Deck) : Sys :=
  let disposeEv : List Ev :=
    match deckSlot s deck with
    | some old => [Ev.songDisposed old.id]
    | none => []
  { s with
    deckA := if deck = Deck.A then some song else s.deckA
    deckB := if deck = Deck.B then some song else s.deckB
    chain := s.chain.connectToDeck song.id deck
    log := s.log ++ disposeEv ++
      [Ev.songAssigned deck song.id, Ev.songLoaded deck song.id] }

/-- `DJController.loadSong(songPath, deck)`.  `res` is the outcome of the
resolution steps (`import` + `new SongClass()` + `await song.init()`).
On rejection the catch block logs the error and rethrows, touching nothing
else; on success the body proceeds as `loadSongOk`. -/
def loadSong (s : Sys) (res : Except Nat Song) (deck : Deck) : Sys × Except Nat Song :=
  match res with
  | Except.error e => ({ s with log := s.log ++ [Ev.loadError e] }, Except.error e)
  | Except.ok song => (loadSongOk s song deck, Except.ok song)

/-- `DJController.removeVisual(visual)`: `indexOf`/`splice` removes the
first occurrence if present, then removes the canvas if set and calls the
optional dispose hook; nothing happens when the visual is absent. -/
def removeVisual (s : Sys) (v : Visual) : Sys :=
  if v ∈ s.visuals then
    { s with
      visuals := s.visuals.erase v
      log := s.log ++ (if v.hasCanvas then [Ev.canvasRemoved v.id] else []) ++
        (if v.hasDispose then [Ev.visualDisposed v.id] else []) }
  else s

/-- `DJController.startCrossfade(duration)`: warn and return when the
inactive deck is empty; otherwise emit `crossfadeStart`, play the inactive
song, ramp the crossfade toward the target value, and schedule a
`setTimeout` completion at `now + duration * 1000` whose closure captured
`targetDeck`. -/
def startCrossfade (s : Sys) (duration : Nat) : Sys :=
  let targetDeck := if s.activeDeck = Deck.A then Deck.B else Deck.A
  let targetValue : ℚ := if s.activeDeck = Deck.A then 1 else 0
  let inactiveSong := if s.activeDeck = Deck.A then s.deckB else s.deckA
  match inactiveSong with
  | none => { s with log := s.log ++ [Ev.warnNoSong] }
  | some song =>
    { s with
      log := s.log ++ [Ev.crossfadeStart s.activeDeck targetDeck duration,
        Ev.songPlayed song.id]
      chain := s.chain.setCrossfade targetValue (duration : ℚ)
      timers := s.timers ++ [{ fireAt := s.now + duration * 1000, target := targetDeck }] }

/-- Body of the `setTimeout` callback in `startCrossfade`: stop the song in
the deck that is active at fire time, then set `activeDeck` to the closure's
captured target and emit `crossfadeComplete`. -/
def fireCompletion (s : Sys) (captured : Deck) : Sys :=
  let oldSong := if s.activeDeck = Deck.A then s.deckA else s.deckB
  let stopEv : List Ev :=
    match oldSong with
    | some song => [Ev.songStopped song.id]
    | none => []
  { s with
    activeDeck := captured
    log := s.log ++ stopEv ++ [Ev.crossfadeComplete captured] }

/-- The earliest due pending timer (first one on ties), as the host timer
queue would pick it. -/
def nextTimer : List Pending → Option Pending
  | [] => none
  | p :: rest =>
    match nextTimer rest with
    | none => some p
    | some q => if q.fireAt < p.fireAt then some q else some p

/-- Host step: advance the clock to the earliest due timer and run its
completion callback. -/
def fireNextTimer (s : Sys) : Sys :=
  match nextTimer s.timers with
  | none => s
  | some p =>
    fireCompletion { s with timers := s.timers.erase p, now := max s.now p.fireAt } p.target

/-- Host step: the clock reads `t` when the next call is made. -/
def atTime (s : Sys) (t : Nat) : Sys :=
  { s with now := t }

/-- `DJController.switchDeck()`: unconditionally set the crossfade to the
opposite extreme, flip `activeDeck`, emit `deckSwitch`. -/
def switchDeck (s : Sys) : Sys :=
  let targetValue : ℚ := if s.activeDeck = Deck.A then 1 else 0
  let newActive := if s.activeDeck = Deck.A then Deck.B else Deck.A
  { s with
    chain := s.chain.setCrossfade targetValue 0
    activeDeck := newActive
    log := s.log ++ [Ev.deckSwitch newActive] }

/-- One execution of `render` inside `startRenderLoop`: read the audio
data, render every visual in list order, then self-reschedule through
`requestAnimationFrame`, storing the fresh handle. -/
def renderTick (s : Sys) : Sys :=
  { s with
    log := s.log ++ [Ev.frameRendered (s.chain.getAudioData s.engine)] ++
      s.visuals.map (fun v => Ev.visualRendered v.id)
    animationId := some s.nextRafId
    rafQueue := s.rafQueue ++ [s.nextRafId]
    nextRafId := s.nextRafId + 1 }

/-- `DJController.startRenderLoop()`: `if (this.animationId) return;`
otherwise run `render()` once synchronously (which schedules the next
frame). -/
def startRenderLoop (s : Sys) : Sys :=
  if truthy s.animationId then s else renderTick s

/-- Host step: the browser fires the outstanding animation frame, running
the scheduled `render` callback. -/
def fireFrame (s : Sys) : Sys :=
  match s.rafQueue with
  | [] => s
  | _id :: rest => renderTick { s with rafQueue := rest }

/-- `DJController.stopRenderLoop()`: when the handle is truthy, cancel the
outstanding frame and clear the handle. -/
def stopRenderLoop (s : Sys) : Sys :=
  match s.animationId with
  | none => s
  | some i =>
    if i = 0 then s
    else { s with rafQueue := s.rafQueue.filter (fun j => j ≠ i), animationId := none }

/-- The render-loop scheduling invariant: rAF ids are positive, and either
the loop is stopped (no handle, no outstanding callback) or it is running
with exactly one outstanding scheduled callback, the one the handle names. -/
def RenderInv (s : Sys) : Prop :=
  1 ≤ s.nextRafId ∧
  ((s.animationId = none ∧ s.rafQueue = []) ∨
    (∃ i, s.animationId = some i ∧ 1 ≤ i ∧ s.rafQueue = [i]))

/-- An uninitialized audio chain, as produced by `new AudioChain()`. -/
def freshChain : AudioChain :=
  { isInitialized := false, fade := { value := 0, target := 0 },
    connectedA := [], connectedB := [] }

/-- An initialized audio chain with one song connected to deck A. -/
def liveChain : AudioChain :=
  { isInitialized := true, fade := { value := 0, target := 0 },
    connectedA := [1], connectedB := [] }

/-- Sample live analyser readings from the external engine. -/
def envEx : Engine :=
  { analyserFreq := [3, 4], analyserWave := [5], meterVol := AudioVol.level (-12) }

/-- A controller state with song 1 already loaded in deck A. -/
def loadSys : Sys :=
  { now := 0
    engine := { analyserFreq := [], analyserWave := [], meterVol := AudioVol.negInf }
    chain := liveChain
    deckA := some { id := 1 }
    deckB := none
    activeDeck := Deck.A
    visuals := []
    animationId := none
    rafQueue := []
    nextRafId := 1
    timers := []
    log := [Ev.songAssigned Deck.A 1, Ev.songLoaded Deck.A 1] }

/-- A controller state with songs in both decks, deck A active, no fade in
flight. -/
def xfadeSys : Sys :=
  { now := 0
    engine := { analyserFreq := [], analyserWave := [], meterVol := AudioVol.negInf }
    chain := { isInitialized := true, fade := { value := 0, target := 0 },
               connectedA := [1], connectedB := [2] }
    deckA := some { id := 1 }
    deckB := some { id := 2 }
    activeDeck := Deck.A
    visuals := []
    animationId := none
    rafQueue := []
    nextRafId := 1
    timers := []
    log := [] }

/-- A visual with a canvas and a dispose capability. -/
def vis7 : Visual := { id := 7, hasCanvas := true, hasDispose := true }

/-- A controller state holding one loaded visual and empty decks. -/
def visSys : Sys :=
  { now := 0
    engine := { analyserFreq := [], analyserWave := [], meterVol := AudioVol.negInf }
    chain := freshChain
    deckA := none
    deckB := none
    activeDeck := Deck.A
    visuals := [vis7]
    animationId := none
    rafQueue := []
    nextRafId := 1
    timers := []
    log := [] }

/-- A controller state whose render loop is running: handle 5 held, one
outstanding scheduled frame with id 5. -/
def renderSys : Sys :=
  { now := 0
    engine := { analyserFreq := [], analyserWave := [], meterVol := AudioVol.negInf }
    chain := freshChain
    deckA := none
    deckB := none
    activeDeck := Deck.A
    visuals := [vis7]
    animationId := some 5
    rafQueue := [5]
    nextRafId := 6
    timers := []
    log := [] }

/-- Start of the overlapping-crossfade trace: songs 1 and 2 loaded, deck A
active, crossfade at 0, nothing scheduled. -/
def raceSys0 : Sys :=
  { now := 0
    engine := { analyserFreq := [], analyserWave := [], meterVol := AudioVol.negInf }
    chain := { isInitialized := true, fade := { value := 0, target := 0 },
               connectedA := [1], connectedB := [2] }
    deckA := some { id := 1 }
    deckB := some { id := 2 }
    activeDeck := Deck.A
    visuals := []
    animationId := none
    rafQueue := []
    nextRafId := 1
    timers := []
    log := [] }

/-- First call at t = 0: a 100-second fade toward deck B; its completion is
scheduled for t = 100000 ms with captured target B. -/
def raceStep1 : Sys := startCrossfade raceSys0 100

/-- Second call at t = 1000 ms, while the first fade is in flight: a
1-second fade, also toward B (activeDeck is still A); completion at
t = 2000 ms. -/
def raceStep2 : Sys := startCrossfade (atTime raceStep1 1000) 1

/-- The second call's completion fires at t = 2000 ms: stops song 1 and
sets activeDeck to B.  The first call's completion is still pending. -/
def raceStep3 : Sys := fireNextTimer raceStep2

/-- Third call at t = 3000 ms, still overlapping the first call's pending
completion: activeDeck is B, so this fade ramps back toward deck A
(target value 0); completion at t = 4000 ms. -/
def raceStep4 : Sys := startCrossfade (atTime raceStep3 3000) 1

/-- The third call's completion fires at t = 4000 ms: stops song 2 and sets
activeDeck to A, matching the ramp target 0 (fully deck A). -/
def raceStep5 : Sys := fireNextTimer raceStep4

/-- The stale completion of the first call finally fires at t = 100000 ms:
it stops song 1 (the song that should be playing) a second time and writes
its captured target B into activeDeck, although the ramp sits at 0. -/
def raceStep6 : Sys := fireNextTimer raceStep5

/-- C1: refuted on the source, matching the hazard the design notes flag.
`startCrossfade` has no single-flight guard (step 4 shows two completions
in flight at once), and its scheduled completion writes the `targetDeck`
captured at schedule time instead of re-deriving it from the ramp's actual
target: after the third fade correctly lands on deck A (step 5, ramp target
0), the first call's stale completion overwrites `activeDeck` with B while
the crossfade ramp still targets 0 (fully deck A), and stops deck A's song
1 a second time.  Two overlapping `startCrossfade` calls thus produce an
incorrect final `activeDeck`. -/
theorem C1_stale_completion_sets_wrong_activeDeck :
    raceStep4.timers.length = 2 ∧
    raceStep5.activeDeck = Deck.A ∧
    raceStep5.chain.fade.target = 0 ∧
    raceStep6.activeDeck = Deck.B ∧
    raceStep6.chain.fade.target = 0 ∧
    raceStep6.log.count (Ev.songStopped 1) = 2 := by
  decide

/-- C2: when module resolution, instantiation or `init()` rejects,
`loadSong` rethrows the error to its caller, leaves both deck slots, the
audio chain and all previously logged events exactly as they were, emits no
`songLoaded`, calls no `dispose()`, and only logs the error. -/
theorem C2_loadSong_failure_leaves_state_untouched (s : Sys) (e : Nat) (deck : Deck) :
    (loadSong s (Except.error e) deck).2 = Except.error e ∧
    (loadSong s (Except.error e) deck).1.deckA = s.deckA ∧
    (loadSong s (Except.error e) deck).1.deckB = s.deckB ∧
    (loadSong s (Except.error e) deck).1.chain = s.chain ∧
    (loadSong s (Except.error e) deck).1.log = s.log ++ [Ev.loadError e] := by
  simp [loadSong]

/-- C3: a successful `loadSong` into a deck already holding a different
song disposes the old song exactly once, does so before the new song is
stored into the slot (the `songDisposed` event precedes `songAssigned` in
the appended log segment), leaves the other deck untouched, and leaves the
slot holding only the new song. -/
theorem C3_loadSong_replacement_disposes_old_once (s : Sys) (oldSong newSong : Song)
    (deck : Deck) (hold : deckSlot s deck = some oldSong) (_hne : oldSong ≠ newSong) :
    deckSlot (loadSong s (Except.ok newSong) deck).1 deck = some newSong ∧
    deckSlot (loadSong s (Except.ok newSong) deck).1 deck.other = deckSlot s deck.other ∧
    (loadSong s (Except.ok newSong) deck).1.log =
      s.log ++ [Ev.songDisposed oldSong.id, Ev.songAssigned deck newSong.id,
        Ev.songLoaded deck newSong.id] ∧
    (loadSong s (Except.ok newSong) deck).1.log.count (Ev.songDisposed oldSong.id) =
      s.log.count (Ev.songDisposed oldSong.id) + 1 := by
  cases deck <;>
    simp [loadSong, loadSongOk, deckSlot, Deck.other] at hold ⊢ <;>
    simp [hold, List.count_append]

/-- C3 witness: loading song 2 into deck A of `loadSys`, which holds
song 1, disposes song 1 exactly once and leaves deck A holding song 2. -/
theorem C3_witness :
    deckSlot (loadSong loadSys (Except.ok { id := 2 }) Deck.A).1 Deck.A = some { id := 2 } ∧
    deckSlot (loadSong loadSys (Except.ok { id := 2 }) Deck.A).1 Deck.A.other =
      deckSlot loadSys Deck.A.other ∧
    (loadSong loadSys (Except.ok { id := 2 }) Deck.A).1.log =
      loadSys.log ++ [Ev.songDisposed 1, Ev.songAssigned Deck.A 2, Ev.songLoaded Deck.A 2] ∧
    (loadSong loadSys (Except.ok { id := 2 }) Deck.A).1.log.count (Ev.songDisposed 1) =
      loadSys.log.count (Ev.songDisposed 1) + 1 :=
  C3_loadSong_replacement_disposes_old_once loadSys { id := 1 } { id := 2 } Deck.A
    (by decide) (by decide)

/-- C4: with songs in both decks, deck A active and nothing else scheduled,
`startCrossfade d` immediately emits `crossfadeStart {from: A, to: B,
duration: d}` (then starts deck B's song), schedules exactly one completion
for `d * 1000` ms later, and that completion, when it fires, stops the
previously active deck A's song and sets `activeDeck` to B. -/
theorem C4_startCrossfade_events_and_completion (s : Sys) (sa sb : Song) (d : Nat)
    (ha : s.activeDeck = Deck.A) (hA : s.deckA = some sa) (hB : s.deckB = some sb)
    (ht : s.timers = []) :
    (startCrossfade s d).log =
      s.log ++ [Ev.crossfadeStart Deck.A Deck.B d, Ev.songPlayed sb.id] ∧
    (startCrossfade s d).timers = [{ fireAt := s.now + d * 1000, target := Deck.B }] ∧
    (fireNextTimer (startCrossfade s d)).activeDeck = Deck.B ∧
    (fireNextTimer (startCrossfade s d)).now = s.now + d * 1000 ∧
    (fireNextTimer (startCrossfade s d)).timers = [] ∧
    (fireNextTimer (startCrossfade s d)).log = s.log ++
      [Ev.crossfadeStart Deck.A Deck.B d, Ev.songPlayed sb.id,
       Ev.songStopped sa.id, Ev.crossfadeComplete Deck.B] := by
  have hstart : startCrossfade s d = { s with
      log := s.log ++ [Ev.crossfadeStart Deck.A Deck.B d, Ev.songPlayed sb.id]
      chain := s.chain.setCrossfade 1 (d : ℚ)
      timers := [{ fireAt := s.now + d * 1000, target := Deck.B }] } := by
    simp [startCrossfade, ha, hB, ht]
  rw [hstart]
  refine ⟨rfl, rfl, ?_, ?_, ?_, ?_⟩ <;>
    simp [fireNextTimer, nextTimer, fireCompletion, ha, hA]

/-- C4 witness: `startCrossfade 4` on `xfadeSys` emits the crossfadeStart
event at once and, 4000 ms later, the completion stops song 1 and makes
deck B active. -/
theorem C4_witness :
    (startCrossfade xfadeSys 4).log =
      xfadeSys.log ++ [Ev.crossfadeStart Deck.A Deck.B 4, Ev.songPlayed 2] ∧
    (startCrossfade xfadeSys 4).timers =
      [{ fireAt := xfadeSys.now + 4 * 1000, target := Deck.B }] ∧
    (fireNextTimer (startCrossfade xfadeSys 4)).activeDeck = Deck.B ∧
    (fireNextTimer (startCrossfade xfadeSys 4)).now = xfadeSys.now + 4 * 1000 ∧
    (fireNextTimer (startCrossfade xfadeSys 4)).timers = [] ∧
    (fireNextTimer (startCrossfade xfadeSys 4)).log = xfadeSys.log ++
      [Ev.crossfadeStart Deck.A Deck.B 4, Ev.songPlayed 2,
       Ev.songStopped 1, Ev.crossfadeComplete Deck.B] :=
  C4_startCrossfade_events_and_completion xfadeSys { id := 1 } { id := 2 } 4 rfl rfl rfl rfl

/-- C5: `getAudioData` returns the all-zero/silence default snapshot
whenever the chain is uninitialized, and again after `dispose()` regardless
of prior state (no stale data, no failure); when initialized it returns the
engine's live analyser values. -/
theorem C5_getAudioData_defaults_and_live (c : AudioChain) (env : Engine) :
    (c.isInitialized = false → c.getAudioData env = defaultAudioData) ∧
    (AudioChain.getAudioData c.dispose env = defaultAudioData) ∧
    (c.isInitialized = true → c.getAudioData env =
      { frequencyData := env.analyserFreq, waveformData := env.analyserWave,
        volume := env.meterVol }) ∧
    (AudioChain.getAudioData c.init env =
      { frequencyData := env.analyserFreq, waveformData := env.analyserWave,
        volume := env.meterVol }) := by
  refine ⟨fun h => by simp [AudioChain.getAudioData, h],
    by simp [AudioChain.getAudioData, AudioChain.dispose],
    fun h => by simp [AudioChain.getAudioData, h],
    by simp [AudioChain.getAudioData, AudioChain.init]⟩

/-- C5 witness: the fresh chain and the disposed live chain both read the
default snapshot even with live engine data present, while the initialized
chain reads the live values. -/
theorem C5_witness :
    freshChain.getAudioData envEx = defaultAudioData ∧
    AudioChain.getAudioData liveChain.dispose envEx = defaultAudioData ∧
    liveChain.getAudioData envEx =
      { frequencyData := envEx.analyserFreq, waveformData := envEx.analyserWave,
        volume := envEx.meterVol } ∧
    AudioChain.getAudioData freshChain.init envEx =
      { frequencyData := envEx.analyserFreq, waveformData := envEx.analyserWave,
        volume := envEx.meterVol } :=
  ⟨(C5_getAudioData_defaults_and_live freshChain envEx).1 rfl,
    (C5_getAudioData_defaults_and_live liveChain envEx).2.1,
    (C5_getAudioData_defaults_and_live liveChain envEx).2.2.1 rfl,
    (C5_getAudioData_defaults_and_live freshChain envEx).2.2.2⟩

/-- C6 counterexample: `setCrossfade` passes its argument through without
clamping, so the argument 2 with ramp time 0 leaves the crossfade position
at 2, outside [0,1].  The claim as stated, quantified over every argument
value, therefore fails on the code. -/
theorem C6_setCrossfade_no_clamp_counterexample :
    (AudioChain.setCrossfade
      { isInitialized := true, fade := { value := 0, target := 0 },
        connectedA := [], connectedB := [] } 2 0).fade.value = 2 ∧
    ¬ (AudioChain.setCrossfade
      { isInitialized := true, fade := { value := 0, target := 0 },
        connectedA := [], connectedB := [] } 2 0).fade.value ≤ 1 := by
  decide

/-- C6 amended: for every argument value in [0,1] and every ramp time,
starting from a position in [0,1], `setCrossfade` keeps the crossfade
position in [0,1] at every point along the ramp (and in particular at its
endpoint). -/
theorem C6_setCrossfade_bounded_amended (c : AudioChain) (v r t : ℚ)
    (hv0 : 0 ≤ v) (hv1 : v ≤ 1) (hc0 : 0 ≤ c.fade.value) (hc1 : c.fade.value ≤ 1)
    (ht0 : 0 ≤ t) (ht1 : t ≤ 1) :
    0 ≤ FadeSignal.sample (c.setCrossfade v r).fade t ∧
    FadeSignal.sample (c.setCrossfade v r).fade t ≤ 1 := by
  unfold AudioChain.setCrossfade
  split <;> simp [FadeSignal.sample] <;> constructor <;> nlinarith

/-- C6 witness: ramping `liveChain` from position 0 toward 1 over 2 seconds
keeps the midpoint sample inside [0,1]. -/
theorem C6_witness :
    0 ≤ FadeSignal.sample (AudioChain.setCrossfade liveChain 1 2).fade (1/2) ∧
    FadeSignal.sample (AudioChain.setCrossfade liveChain 1 2).fade (1/2) ≤ 1 :=
  C6_setCrossfade_bounded_amended liveChain 1 2 (1/2) (by norm_num) (by norm_num)
    (by decide) (by decide) (by norm_num) (by norm_num)

/-- C7: under the render-loop invariant, `startRenderLoop` on a running
loop is the identity (idempotent start), every loop operation keeps at most
one outstanding scheduled frame callback, and `stopRenderLoop` leaves no
outstanding callback and a cleared handle. -/
theorem C7_render_loop_single_outstanding (s : Sys) (h : RenderInv s) :
    (truthy s.animationId = true → startRenderLoop s = s) ∧
    (startRenderLoop s).rafQueue.length ≤ 1 ∧
    RenderInv (startRenderLoop s) ∧
    (fireFrame s).rafQueue.length ≤ 1 ∧
    RenderInv (fireFrame s) ∧
    (stopRenderLoop s).animationId = none ∧
    (stopRenderLoop s).rafQueue = [] ∧
    RenderInv (stopRenderLoop s) := by
  obtain ⟨hn, hcase⟩ := h
  rcases hcase with ⟨ha, hq⟩ | ⟨i, ha, hi, hq⟩
  · have e1 : startRenderLoop s = renderTick s := by
      simp [startRenderLoop, truthy, ha]
    have e2 : fireFrame s = s := by
      simp [fireFrame, hq]
    have e3 : stopRenderLoop s = s := by
      simp [stopRenderLoop, ha]
    refine ⟨?_, ?_, ?_, ?_, ?_, ?_, ?_, ?_⟩
    · intro habs; rw [ha] at habs; simp [truthy] at habs
    · rw [e1]; simp [renderTick, hq]
    · rw [e1]
      refine ⟨by simp [renderTick],
        Or.inr ⟨s.nextRafId, by simp [renderTick], hn, by simp [renderTick, hq]⟩⟩
    · rw [e2, hq]; simp
    · rw [e2]; exact ⟨hn, Or.inl ⟨ha, hq⟩⟩
    · rw [e3]; exact ha
    · rw [e3]; exact hq
    · rw [e3]; exact ⟨hn, Or.inl ⟨ha, hq⟩⟩
  · have hi0 : i ≠ 0 := by omega
    have et : truthy s.animationId = true := by
      rw [ha]; simp [truthy, hi0]
    have e1 : startRenderLoop s = s := by
      simp [startRenderLoop, et]
    have e2 : fireFrame s = renderTick { s with rafQueue := [] } := by
      simp [fireFrame, hq]
    have e3 : stopRenderLoop s =
        { s with rafQueue := s.rafQueue.filter (fun j => j ≠ i), animationId := none } := by
      simp [stopRenderLoop, ha, hi0]
    refine ⟨fun _ => e1, ?_, ?_, ?_, ?_, ?_, ?_, ?_⟩
    · rw [e1, hq]; simp
    · rw [e1]; exact ⟨hn, Or.inr ⟨i, ha, hi, hq⟩⟩
    · rw [e2]; simp [renderTick]
    · rw [e2]
      refine ⟨by simp [renderTick],
        Or.inr ⟨s.nextRafId, by simp [renderTick], hn, by simp [renderTick]⟩⟩
    · rw [e3]
    · rw [e3]; simp [hq]
    · rw [e3]
      exact ⟨hn, Or.inl ⟨rfl, by simp [hq]⟩⟩

/-- C7 witness: on `renderSys`, whose loop is running with handle 5,
starting again changes nothing, stopping clears the handle and cancels the
one outstanding frame, and firing a frame keeps at most one outstanding. -/
theorem C7_witness :
    startRenderLoop renderSys = renderSys ∧
    (stopRenderLoop renderSys).animationId = none ∧
    (stopRenderLoop renderSys).rafQueue = [] ∧
    (fireFrame renderSys).rafQueue.length ≤ 1 := by
  have h := C7_render_loop_single_outstanding renderSys
    ⟨by decide, Or.inr ⟨5, rfl, by decide, rfl⟩⟩
  exact ⟨h.1 (by decide), h.2.2.2.2.2.1, h.2.2.2.2.2.2.1, h.2.2.2.1⟩

/-- C8: `removeVisual` on an absent visual is a complete no-op (no state
change, no hooks invoked); on a visual present at most once, a first call
removes it and fires the canvas removal and the optional dispose hook once
each, and a second call with the same visual changes nothing. -/
theorem C8_removeVisual_idempotent (s : Sys) (v : Visual)
    (hcount : s.visuals.count v ≤ 1) :
    (v ∉ s.visuals → removeVisual s v = s) ∧
    removeVisual (removeVisual s v) v = removeVisual s v ∧
    (v ∈ s.visuals →
      v ∉ (removeVisual s v).visuals ∧
      (removeVisual s v).log = s.log ++
        (if v.hasCanvas then [Ev.canvasRemoved v.id] else []) ++
        (if v.hasDispose then [Ev.visualDisposed v.id] else [])) := by
  by_cases hm : v ∈ s.visuals
  · have hc1 : s.visuals.count v = 1 :=
      le_antisymm hcount (List.count_pos_iff.mpr hm)
    have hnot : v ∉ s.visuals.erase v := by
      rw [← List.count_eq_zero, List.count_erase_self, hc1]
    refine ⟨fun h => absurd hm h, ?_, fun _ => ⟨?_, ?_⟩⟩
    · simp [removeVisual, hm, hnot]
    · simp [removeVisual, hm, hnot]
    · simp [removeVisual, hm]
  · simp [removeVisual, hm]

/-- C8 witness: removing visual 7 from `visSys` removes it and fires each
hook once; removing it again changes nothing. -/
theorem C8_witness :
    removeVisual (removeVisual visSys vis7) vis7 = removeVisual visSys vis7 ∧
    vis7 ∉ (removeVisual visSys vis7).visuals ∧
    (removeVisual visSys vis7).log = visSys.log ++
      (if vis7.hasCanvas then [Ev.canvasRemoved vis7.id] else []) ++
      (if vis7.hasDispose then [Ev.visualDisposed vis7.id] else []) := by
  have h := C8_removeVisual_idempotent visSys vis7 (by decide)
  exact ⟨h.2.1, (h.2.2 (by decide)).1, (h.2.2 (by decide)).2⟩

/-- C9: `switchDeck` has no empty-deck guard: in every state, including
states whose destination deck holds no song, it sets the crossfade position
immediately to the opposite extreme (1 when A was active, 0 when B was),
flips `activeDeck`, emits `deckSwitch`, and is never a no-op; by contrast,
`startCrossfade` with an empty inactive deck only logs a warning and
changes nothing else. -/
theorem C9_switchDeck_unconditional (s : Sys) :
    (switchDeck s).activeDeck = s.activeDeck.other ∧
    (switchDeck s).chain.fade.value = (if s.activeDeck = Deck.A then (1:ℚ) else 0) ∧
    (switchDeck s).chain.fade.target = (if s.activeDeck = Deck.A then (1:ℚ) else 0) ∧
    (switchDeck s).log = s.log ++ [Ev.deckSwitch s.activeDeck.other] ∧
    (switchDeck s).deckA = s.deckA ∧
    (switchDeck s).deckB = s.deckB ∧
    switchDeck s ≠ s ∧
    (∀ d : Nat, (if s.activeDeck = Deck.A then s.deckB else s.deckA) = none →
      startCrossfade s d = { s with log := s.log ++ [Ev.warnNoSong] }) := by
  have hact : (switchDeck s).activeDeck = s.activeDeck.other := by
    cases h : s.activeDeck <;> simp [switchDeck, Deck.other, h]
  have hne : switchDeck s ≠ s := by
    intro heq
    rw [heq] at hact
    cases h : s.activeDeck <;> rw [h] at hact <;> simp [Deck.other] at hact
  have hguard : ∀ d : Nat, (if s.activeDeck = Deck.A then s.deckB else s.deckA) = none →
      startCrossfade s d = { s with log := s.log ++ [Ev.warnNoSong] } := by
    intro d hd
    simp [startCrossfade, hd]
  refine ⟨hact, ?_, ?_, ?_, ?_, ?_, hne, hguard⟩ <;>
    cases h : s.activeDeck <;>
    simp [switchDeck, AudioChain.setCrossfade, Deck.other, h]

/-- C9 witness: on `visSys`, whose decks are both empty, `switchDeck` still
flips the active deck and is not a no-op, while `startCrossfade` only logs
its warning. -/
theorem C9_witness :
    (switchDeck visSys).activeDeck = Deck.B ∧
    switchDeck visSys ≠ visSys ∧
    startCrossfade visSys 4 = { visSys with log := visSys.log ++ [Ev.warnNoSong] } := by
  have h := C9_switchDeck_unconditional visSys
  exact ⟨h.1, h.2.2.2.2.2.2.1, h.2.2.2.2.2.2.2 4 rfl⟩

set_option maxRecDepth 8192 in
/-- C10: the default snapshot returned while the chain is uninitialized (or
torn down) has a frequency buffer of exactly 1024 entries all equal to 0, a
waveform buffer of exactly 1024 entries all equal to 0, and a volume equal
to the negative-infinity decibel silence value, which is not the level 0. -/
theorem C10_default_snapshot_shape (c : AudioChain) (env : Engine)
    (h : c.isInitialized = false) :
    (c.getAudioData env).frequencyData = List.replicate 1024 (0:ℚ) ∧
    (c.getAudioData env).frequencyData.length = 1024 ∧
    (c.getAudioData env).waveformData = List.replicate 1024 (0:ℚ) ∧
    (c.getAudioData env).waveformData.length = 1024 ∧
    (c.getAudioData env).volume = AudioVol.negInf ∧
    AudioVol.negInf ≠ AudioVol.level 0 := by
  have hd : c.getAudioData env = defaultAudioData := by
    simp [AudioChain.getAudioData, h]
  rw [hd]
  exact ⟨rfl, by decide, rfl, by decide, rfl, by decide⟩

set_option maxRecDepth 8192 in
/-- C10 witness: the fresh uninitialized chain's snapshot is 1024 zeros in
both buffers with negative-infinity volume, even with live engine data
available. -/
theorem C10_witness :
    (freshChain.getAudioData envEx).frequencyData = List.replicate 1024 (0:ℚ) ∧
    (freshChain.getAudioData envEx).frequencyData.length = 1024 ∧
    (freshChain.getAudioData envEx).waveformData = List.replicate 1024 (0:ℚ) ∧
    (freshChain.getAudioData envEx).waveformData.length = 1024 ∧
    (freshChain.getAudioData envEx).volume = AudioVol.negInf ∧
    AudioVol.negInf ≠ AudioVol.level 0 :=
  C10_default_snapshot_shape freshChain envEx rfl

end DJOverlay
